import Mathlib

/-!
Verification of the Office Villain game core: entity model, vote
validation, tally and resolution (`handlePlayerVote` in `src/App.tsx`),
the streaming character-reply sequence (`getCharacterResponses`), and the
scene-image / portrait merges.  Stateful React handlers are embedded as
explicit state-passing functions on a `Session` record; the AI gateway is
an explicit argument (an `Except`-valued oracle), and the per-request
completion latency of the reply fan-out is a further explicit argument so
that independence from it can be stated.
-/

namespace OfficeVillain

/-- Character status, from `types.ts`: `'active' | 'voted_out'`. -/
inductive Status where
  | active
  | voted_out
deriving DecidableEq, Repr

/-- Game phase, from `types.ts` (`GameState`). -/
inductive GameState where
  | welcome
  | setting_up
  | briefing
  | discussion
  | voting
  | reveal
  | game_over_win
  | game_over_loss
deriving DecidableEq, Repr

/-- Character record, from `types.ts`. -/
structure Character where
  name : String
  position : String
  personality : String
  isVillain : Bool
  status : Status
  imageUrl : Option String
  isPlayer : Bool
  votes : Nat
deriving DecidableEq, Repr

/-- Transcript message, from `types.ts`. -/
structure Message where
  sender : String
  text : String
  isSpecial : Bool
  isPrivate : Bool
  imageUrl : Option String
deriving DecidableEq, Repr

/-- One (voter, votedFor) ballot. -/
structure Vote where
  voter : String
  votedFor : String
deriving DecidableEq, Repr

/-- One character reply yielded by the reply stream (`{name, response}`). -/
structure Reply where
  name : String
  response : String
deriving DecidableEq, Repr

/-- The session state owned by the `App` component (the `useState` cells
relevant to the game logic). -/
structure Session where
  gameState : GameState
  characters : List Character
  playerCharacter : Option Character
  messages : List Message
  sabotage : String
  villain : Option Character
  isLoading : Bool
  sceneImageUrl : Option String
deriving DecidableEq, Repr

/-- `App.tsx` line 203: names of characters that are active and not the
player (`characters.filter(c => c.status === 'active' && !c.isPlayer)`). -/
def activeAiVoters (characters : List Character) : List String :=
  (characters.filter (fun c => decide (c.status = Status.active ∧ c.isPlayer = false))).map
    (fun c => c.name)

/-- `App.tsx` lines 206-212: the `aiVotes.filter` loop with the mutable
`seenVoters` set, traversed left to right. -/
def filterAiVotes (eligible : List String) (seenVoters : List String) :
    List Vote → List Vote
  | [] => []
  | vote :: rest =>
    if vote.voter ∈ eligible ∧ vote.voter ∉ seenVoters then
      vote :: filterAiVotes eligible (vote.voter :: seenVoters) rest
    else
      filterAiVotes eligible seenVoters rest

/-- `App.tsx` lines 203-212: `validatedAiVotes`. -/
def validatedAiVotes (characters : List Character) (aiVotes : List Vote) : List Vote :=
  filterAiVotes (activeAiVoters characters) [] aiVotes

/-- Modelled from the spec (section 4.3), for comparison with
`validatedAiVotes`: among the remaining votes keep only the first vote of
each voter not yet seen ("first occurrence wins; duplicates from the same
voter are dropped"). -/
def specFirstVotePerVoter (seenVoters : List String) : List Vote → List Vote
  | [] => []
  | vote :: rest =>
    if vote.voter ∈ seenVoters then specFirstVotePerVoter seenVoters rest
    else vote :: specFirstVotePerVoter (vote.voter :: seenVoters) rest

/-- `App.tsx` line 244: `currentTally[vote.votedFor] =
(currentTally[vote.votedFor] || 0) + 1` on a plain JS object, modelled as
an insertion-ordered association list: an existing key is bumped in place,
a missing key (any unrecognized target included) is appended with count 1. -/
def bumpTally (tally : List (String × Nat)) (votedFor : String) : List (String × Nat) :=
  if votedFor ∈ tally.map (fun p => p.1) then
    tally.map (fun p => if p.1 = votedFor then (p.1, p.2 + 1) else p)
  else
    tally ++ [(votedFor, 1)]

/-- `App.tsx` line 217: `characters.forEach(c => { currentTally[c.name] = 0; })`. -/
def initialTally (characters : List Character) : List (String × Nat) :=
  characters.map (fun c => (c.name, 0))

/-- `App.tsx` lines 216-250: the tally accumulated over the final vote set. -/
def currentTally (characters : List Character) (allVotes : List Vote) :
    List (String × Nat) :=
  allVotes.foldl (fun t v => bumpTally t v.votedFor) (initialTally characters)

/-- Reading one key of the tally object (`currentTally[name] || 0`): the
first entry with that key, or 0 when the key is absent. -/
def tallyLookup : List (String × Nat) → String → Nat
  | [], _ => 0
  | p :: rest, name => if p.1 = name then p.2 else tallyLookup rest name

/-- `App.tsx` line 256: `Math.max(0, ...voteCounts)`. -/
def maxVotes (tally : List (String × Nat)) : Nat :=
  (tally.map (fun p => p.2)).foldl Nat.max 0

/-- `App.tsx` line 257: keys whose count equals the maximum, considered only
when the maximum is positive. -/
def candidatesForElimination (tally : List (String × Nat)) : List String :=
  (tally.filter (fun p => decide (p.2 = maxVotes tally ∧ 0 < maxVotes tally))).map
    (fun p => p.1)

/-- `App.tsx` line 281: mark the voted-out character. -/
def markVotedOut (characters : List Character) (votedOutName : String) : List Character :=
  characters.map (fun c =>
    if c.name = votedOutName then { c with status := Status.voted_out } else c)

/-- `App.tsx` line 245 at the end of the reveal loop: every character carries
its final tally in its `votes` field. -/
def withTallies (tally : List (String × Nat)) (characters : List Character) :
    List Character :=
  characters.map (fun c => { c with votes := tallyLookup tally c.name })

/-- `App.tsx` line 344: reset every character's votes to 0. -/
def resetVotes (characters : List Character) : List Character :=
  characters.map (fun c => { c with votes := 0 })

/-- A plain system message. -/
def systemMsg (text : String) : Message :=
  { sender := "system", text := text, isSpecial := false, isPrivate := false, imageUrl := none }

/-- A system message flagged `isSpecial`. -/
def specialMsg (text : String) : Message :=
  { sender := "system", text := text, isSpecial := true, isPrivate := false, imageUrl := none }

/-- `App.tsx` line 246: the per-vote reveal announcement. -/
def voteAnnouncement (v : Vote) : Message :=
  systemMsg (v.voter ++ "님이 " ++ v.votedFor ++ "님을 지목했습니다.")

/-- A confession message sent in a character's name. -/
def confessionMsg (senderName confession : String) : Message :=
  { sender := senderName, text := "[자백] " ++ confession,
    isSpecial := false, isPrivate := false, imageUrl := none }

/-- `App.tsx` line 196: the message posted before the gateway round-trip. -/
def tallyingMsg : Message := systemMsg "투표가 집계 중입니다..."

/-- `App.tsx` line 365: the system error message of the catch block. -/
def gatewayErrorMsg (e : String) : Message := systemMsg ("Error: " ++ e)

/-- The catch block's message when the branch dereferences a missing value
(a `TypeError` raised by `votedOutCharacter.…` or `villain!.…` on a value
that is not there); the run aborts into the same catch block. -/
def runtimeErrorMsg : Message := systemMsg "Error: TypeError"

/-- `App.tsx` line 326: the remaining head count after a single elimination,
`characters.filter(c => c.status === 'active').length - 1` computed on the
pre-round roster. -/
def remainingActiveAfter (characters : List Character) : Nat :=
  (characters.filter (fun c => decide (c.status = Status.active))).length - 1

/-- JS `String.prototype.trim()`: drop whitespace from both ends, written
structurally over the character list so that concrete runs reduce. -/
def jsTrim (s : String) : String :=
  String.mk (((s.data.dropWhile Char.isWhitespace).reverse.dropWhile
    Char.isWhitespace).reverse)

/-- The player's chat message appended optimistically (`App.tsx` line 168). -/
def playerMessage (playerCharacter : Character) (text : String) : Message :=
  { sender := playerCharacter.name, text := text,
    isSpecial := false, isPrivate := false, imageUrl := none }

/-- A streamed reply as appended to the transcript (`App.tsx` line 178). -/
def replyMessage (r : Reply) : Message :=
  { sender := r.name, text := r.response,
    isSpecial := false, isPrivate := false, imageUrl := none }

/-- The final vote set (`App.tsx` line 214): the authoritative player vote
followed by the validated AI votes. -/
def roundVotes (characters : List Character) (playerVote : Vote) (aiVotes : List Vote) :
    List Vote :=
  playerVote :: validatedAiVotes characters aiVotes

/-- The tally of one voting round over the final vote set. -/
def roundTally (characters : List Character) (playerVote : Vote) (aiVotes : List Vote) :
    List (String × Nat) :=
  currentTally characters (roundVotes characters playerVote aiVotes)

/-- Shared tail of the tie branch (`App.tsx` lines 260-274) and the
no-candidate branch (lines 348-361): reveal the true villain and their
confession, outcome by whether the player is the villain.  A null `villain`
makes the reveal dereference fail at run time, which lands in the catch
block (modelled by the `none` case). -/
def villainAutoWin (s : Session) (charsVotes : List Character) (msgs : List Message)
    (isPlayerTheVillain : Bool) (confession : String) : Session :=
  match s.villain with
  | some villain =>
    { s with characters := charsVotes,
             messages := msgs ++
               [specialMsg ("진짜 빌런은 " ++ villain.name ++ "이었습니다!"),
                confessionMsg villain.name confession],
             gameState := if isPlayerTheVillain then GameState.game_over_win
               else GameState.game_over_loss,
             isLoading := false }
  | none =>
    { s with characters := charsVotes,
             messages := msgs ++ [runtimeErrorMsg],
             gameState := GameState.discussion,
             isLoading := false }

/-- `App.tsx` lines 276-347: the single-elimination branch.  The lookup
`characters.find(c => c.name === votedOutName)` runs on the pre-round
roster; when it finds nothing the later property accesses raise and the
round falls into the catch block (the `none` case).  The background
`editImageToRemoveCharacter` call is fire-and-forget and does not reach the
end state. -/
def eliminateOne (s : Session) (playerCharacter : Character) (confession : String)
    (msgs1 : List Message) (charsVotes : List Character) (votedOutName : String) :
    Session :=
  let charsAfterOut := markVotedOut charsVotes votedOutName
  let msgs2 := msgs1 ++
    [systemMsg ("투표 결과, " ++ votedOutName ++ "님이 가장 많은 표를 받아 해고되었습니다...")]
  match s.characters.find? (fun c => decide (c.name = votedOutName)) with
  | none =>
    { s with characters := charsAfterOut,
             messages := msgs2 ++ [runtimeErrorMsg],
             gameState := GameState.discussion, isLoading := false }
  | some votedOutCharacter =>
    if votedOutCharacter.isVillain then
      { s with characters := charsAfterOut,
               messages := msgs2 ++
                 [specialMsg (if votedOutCharacter.isPlayer then
                     "...그리고 밝혀진 진실은, 당신이 바로 오피스 빌런이었습니다! 덜미를 잡혔네요."
                   else "축하합니다! " ++ votedOutName ++ "은(는) 진짜 오피스 빌런이었습니다!"),
                  confessionMsg votedOutName confession],
               gameState := if playerCharacter.isVillain then GameState.game_over_loss
                 else GameState.game_over_win,
               isLoading := false }
    else if votedOutCharacter.isPlayer then
      match s.villain with
      | some villain =>
        { s with characters := charsAfterOut,
                 messages := msgs2 ++
                   [specialMsg ("안타깝네요... 당신은 빌런이 아니었지만, 동료들에게 지목당했습니다. 진짜 빌런은 "
                       ++ villain.name ++ "이었습니다!"),
                    confessionMsg villain.name confession],
                 gameState := GameState.game_over_loss, isLoading := false }
      | none =>
        { s with characters := charsAfterOut,
                 messages := msgs2 ++ [runtimeErrorMsg],
                 gameState := GameState.discussion, isLoading := false }
    else
      let remainingCount := remainingActiveAfter s.characters
      if remainingCount ≤ 2 then
        match s.villain with
        | some villain =>
          { s with characters := charsAfterOut,
                   messages := msgs2 ++
                     [specialMsg ("안타깝네요... " ++ votedOutName ++ "은(는) 빌런이 아니었습니다. 이제 "
                         ++ toString remainingCount
                         ++ "명만 남아 빌런의 승리로 끝났습니다. 진짜 빌런은 "
                         ++ villain.name ++ "이었습니다!"),
                      confessionMsg villain.name confession],
                   gameState := if playerCharacter.isVillain then GameState.game_over_win
                     else GameState.game_over_loss,
                   isLoading := false }
        | none =>
          { s with characters := charsAfterOut,
                   messages := msgs2 ++ [runtimeErrorMsg],
                   gameState := GameState.discussion, isLoading := false }
      else
        { s with characters := resetVotes charsAfterOut,
                 messages := msgs2 ++
                   [specialMsg ("...하지만 " ++ votedOutName
                       ++ "은(는) 빌런이 아니었습니다! 아직 빌런이 남아있습니다. 토론을 계속하세요...")],
                 gameState := GameState.discussion, isLoading := false }

/-- `App.tsx` lines 254-361: the result determination on the finished tally,
ordered as in the source: more than one candidate is a tie, exactly one is
an elimination, none is the degenerate no-vote case. -/
def resolveRound (s : Session) (playerCharacter : Character) (confession : String)
    (tally : List (String × Nat)) (msgs1 : List Message) (charsVotes : List Character) :
    Session :=
  match candidatesForElimination tally with
  | [] =>
    villainAutoWin s charsVotes
      (msgs1 ++ [specialMsg "아무도 지목되지 않았습니다. 빌런을 잡지 못했으므로, 시민들의 패배입니다..."])
      playerCharacter.isVillain confession
  | [votedOutName] =>
    eliminateOne s playerCharacter confession msgs1 charsVotes votedOutName
  | _ :: _ :: _ =>
    villainAutoWin s charsVotes
      (msgs1 ++ [specialMsg "투표가 동점으로 끝났습니다! 빌런을 특정하지 못했으므로, 시민들의 패배입니다..."])
      playerCharacter.isVillain confession

/-- The body of `handlePlayerVote` past the guard: post the tallying notice,
call the gateway, and on success validate, announce and resolve; on gateway
failure post one error message and return to discussion (`App.tsx`
lines 194-369). -/
def handleVoteRound (s : Session) (playerCharacter : Character) (votedName : String)
    (gatewayResult : Except String (List Vote × String)) : Session :=
  match gatewayResult with
  | Except.error e =>
    { s with messages := (s.messages ++ [tallyingMsg]) ++ [gatewayErrorMsg e],
             gameState := GameState.discussion, isLoading := false }
  | Except.ok (aiVotes, confession) =>
    resolveRound s playerCharacter confession
      (roundTally s.characters (Vote.mk playerCharacter.name votedName) aiVotes)
      ((s.messages ++ [tallyingMsg]) ++
        (roundVotes s.characters (Vote.mk playerCharacter.name votedName) aiVotes).map
          voteAnnouncement)
      (withTallies (roundTally s.characters (Vote.mk playerCharacter.name votedName) aiVotes)
        s.characters)

/-- `App.tsx` lines 191-370, `handlePlayerVote(votedName)`: the guard
`if (gameState !== 'voting' || !playerCharacter || isLoading) return` is a
silent no-op; otherwise the round runs with the gateway outcome passed in
explicitly.  (The DOM-ref guard on `characterPanelRef` is presentation-layer
and assumed present.) -/
def handlePlayerVote (s : Session) (votedName : String)
    (gatewayResult : Except String (List Vote × String)) : Session :=
  match s.playerCharacter with
  | none => s
  | some playerCharacter =>
    if s.gameState = GameState.voting ∧ s.isLoading = false then
      handleVoteRound s playerCharacter votedName gatewayResult
    else s

/-- `src/unnamed/part_002` line 143: active characters other than the player. -/
def activeAICharacters (characters : List Character) (playerCharacterName : String) :
    List Character :=
  characters.filter (fun c => decide (c.status = Status.active ∧ c.name ≠ playerCharacterName))

/-- `src/unnamed/part_002` lines 136-173, `getCharacterResponses`: one
request per active non-player character is fired in roster order, and the
generator yields `await`ed results in that same creation order, so the
output never depends on the per-request completion latency (passed here as
an explicit, unused oracle).  A failed request is caught inside its own
promise and replaced by the `"..."` fallback reply. -/
def getCharacterResponses (userInput : String) (characters : List Character)
    (sabotage : String) (chatHistory : List Message) (playerCharacterName : String)
    (apiText : String → Except String String) (completionLatency : String → Nat) :
    List Reply :=
  (activeAICharacters characters playerCharacterName).map (fun character =>
    match apiText character.name with
    | Except.ok text => { name := character.name, response := jsTrim text }
    | Except.error _ => { name := character.name, response := "..." })

/-- `App.tsx` lines 164-189, `handleSendMessage`: append the player message
optimistically, then append each streamed reply in yield order; the busy
flag is cleared at the end. -/
def handleSendMessage (s : Session) (userInput : String)
    (apiText : String → Except String String) (completionLatency : String → Nat) :
    Session :=
  match s.playerCharacter with
  | none => s
  | some playerCharacter =>
    if jsTrim userInput = "" ∨ s.isLoading = true ∨ s.gameState ≠ GameState.discussion then s
    else
      let messagesForApi := s.messages ++ [playerMessage playerCharacter userInput]
      let replies := getCharacterResponses userInput s.characters s.sabotage
        messagesForApi playerCharacter.name apiText completionLatency
      { s with
          messages := messagesForApi ++ replies.map replyMessage,
          isLoading := false }

/-- `App.tsx` lines 134-136 and 289-291: attach a scene image to the
messages identified by the `isSpecial` flag. -/
def mergeSceneImage (imageUrl : String) (messages : List Message) : List Message :=
  messages.map (fun msg =>
    if msg.isSpecial then { msg with imageUrl := some imageUrl } else msg)

/-- `App.tsx` lines 143-153: merge one finished portrait into the roster by
index (`if (updatedChars[index]) updatedChars[index].imageUrl = imageUrl`). -/
def mergePortrait (characters : List Character) (index : Nat) (imageUrl : String) :
    List Character :=
  match characters.get? index with
  | some c => characters.set index { c with imageUrl := some imageUrl }
  | none => characters

/-- Status monotonicity between two rosters: same length, and a voted-out
character stays voted out at its position. -/
def statusPreserved (old new : List Character) : Prop :=
  new.length = old.length ∧
  ∀ i (hi : i < old.length) (hj : i < new.length),
    (old.get ⟨i, hi⟩).status = Status.voted_out →
      (new.get ⟨i, hj⟩).status = Status.voted_out

/-- A sample character for concrete runs. -/
def mkChar (name : String) (isVillain : Bool) (st : Status) (isPlayer : Bool) : Character :=
  { name := name, position := "사원", personality := "평범한", isVillain := isVillain,
    status := st, imageUrl := none, isPlayer := isPlayer, votes := 0 }

/-- The active non-player voter of the spec's validation example. -/
def exA : Character := mkChar "A" false Status.active false

/-- The player of the spec's validation example. -/
def exB : Character := mkChar "B" true Status.active true

/-- A roster for the unknown-target counterexample: player A plus B and C,
none of them named Ghost. -/
def ghostChars : List Character :=
  [mkChar "A" true Status.active true, mkChar "B" false Status.active false,
   mkChar "C" false Status.active false]

/-- The player of the four-character sample session. -/
def tiePlayer : Character := mkChar "P" false Status.active true

/-- The villain of the four-character sample session. -/
def tieVillainChar : Character := mkChar "V" true Status.active false

/-- Roster of the four-character sample session. -/
def tieChars : List Character :=
  [tiePlayer, tieVillainChar, mkChar "C" false Status.active false,
   mkChar "D" false Status.active false]

/-- A sample session sitting in the voting phase. -/
def tieSession : Session :=
  { gameState := GameState.voting, characters := tieChars,
    playerCharacter := some tiePlayer, messages := [], sabotage := "간식 실종",
    villain := some tieVillainChar, isLoading := false, sceneImageUrl := none }

/-- AI votes producing a 2-2 tie once the player votes for V. -/
def tieAiVotes : List Vote := [Vote.mk "V" "C", Vote.mk "C" "V", Vote.mk "D" "C"]

/-- AI votes that pile onto the villain V once the player votes for V. -/
def catchAiVotes : List Vote := [Vote.mk "V" "C", Vote.mk "C" "V", Vote.mk "D" "V"]

/-- The innocent non-player eliminated in the continue-round sample. -/
def contChar : Character := mkChar "C" false Status.active false

/-- Roster of the five-character sample session. -/
def contChars : List Character :=
  [mkChar "P" false Status.active true, mkChar "V" true Status.active false,
   contChar, mkChar "D" false Status.active false, mkChar "E" false Status.active false]

/-- A five-character session in the voting phase, for the continue branch. -/
def contSession : Session :=
  { gameState := GameState.voting, characters := contChars,
    playerCharacter := some (mkChar "P" false Status.active true), messages := [],
    sabotage := "간식 실종", villain := some (mkChar "V" true Status.active false),
    isLoading := false, sceneImageUrl := none }

/-- AI votes concentrating on the innocent C in the five-character session. -/
def contAiVotes : List Vote :=
  [Vote.mk "V" "C", Vote.mk "C" "P", Vote.mk "D" "C", Vote.mk "E" "P"]

/-- A sample session sitting in the discussion phase. -/
def chatSession : Session :=
  { gameState := GameState.discussion, characters := tieChars,
    playerCharacter := some tiePlayer, messages := [], sabotage := "간식 실종",
    villain := some tieVillainChar, isLoading := false, sceneImageUrl := none }

/-- A reply oracle that always succeeds. -/
def okApi : String → Except String String := fun _ => Except.ok "글쎄요"

/-- A completion-latency assignment for concrete runs. -/
def zeroLatency : String → Nat := fun _ => 0

theorem filterAiVotes_eq_spec (eligible : List String) (votes : List Vote) :
    ∀ seen, filterAiVotes eligible seen votes
      = specFirstVotePerVoter seen (votes.filter (fun v => decide (v.voter ∈ eligible))) := by
  induction votes with
  | nil => intro seen; rfl
  | cons v rest ih =>
    intro seen
    by_cases he : v.voter ∈ eligible
    · by_cases hs : v.voter ∈ seen
      · simp [filterAiVotes, specFirstVotePerVoter, he, hs, ih]
      · simp [filterAiVotes, specFirstVotePerVoter, he, hs, ih]
    · simp [filterAiVotes, he, ih]

/-- C1: an AI vote is accepted exactly when its voter is an active non-player
character and no earlier vote of the same voter was accepted: the validated
list equals the spec-side "drop ineligible voters, keep the first vote per
voter" computation, and on the spec's example `[{A,X},{A,Y},{B,Z}]` with A
active non-player and B the player the accepted set is `[{A,X}]`. -/
theorem claim1_ai_vote_validation (characters : List Character) (aiVotes : List Vote) :
    validatedAiVotes characters aiVotes
      = specFirstVotePerVoter []
          (aiVotes.filter (fun v => decide (v.voter ∈ activeAiVoters characters)))
    ∧ validatedAiVotes [exA, exB] [Vote.mk "A" "X", Vote.mk "A" "Y", Vote.mk "B" "Z"]
      = [Vote.mk "A" "X"] :=
  ⟨filterAiVotes_eq_spec _ _ [], by decide⟩

/-- C9: merging the same scene image twice equals merging it once. -/
theorem claim9_scene_merge_idempotent (imageUrl : String) (messages : List Message) :
    mergeSceneImage imageUrl (mergeSceneImage imageUrl messages)
      = mergeSceneImage imageUrl messages := by
  unfold mergeSceneImage
  rw [List.map_map]
  apply List.map_congr_left
  intro msg _
  rcases msg with ⟨sender, text, isSpecial, isPrivate, oldUrl⟩
  cases isSpecial <;> simp

theorem getCharacterResponses_names (userInput : String) (characters : List Character)
    (sabotage : String) (chatHistory : List Message) (playerCharacterName : String)
    (apiText : String → Except String String) (completionLatency : String → Nat) :
    (getCharacterResponses userInput characters sabotage chatHistory playerCharacterName
        apiText completionLatency).map (fun r => r.name)
      = (activeAICharacters characters playerCharacterName).map (fun c => c.name) := by
  unfold getCharacterResponses
  rw [List.map_map]
  apply List.map_congr_left
  intro c _
  cases h : apiText c.name <;> simp [h]

/-- C10: the reply sequence never aborts or shortens on an individual
failure: it always yields one reply per active non-player character (in
roster order), and a character whose request fails contributes the
placeholder reply `{name, "..."}`. -/
theorem claim10_reply_failure_isolated (userInput : String) (characters : List Character)
    (sabotage : String) (chatHistory : List Message) (playerCharacterName : String)
    (apiText : String → Except String String) (completionLatency : String → Nat) :
    (getCharacterResponses userInput characters sabotage chatHistory playerCharacterName
        apiText completionLatency).map (fun r => r.name)
      = (activeAICharacters characters playerCharacterName).map (fun c => c.name)
    ∧ ∀ c e, c ∈ activeAICharacters characters playerCharacterName →
        apiText c.name = Except.error e →
        ({ name := c.name, response := "..." } : Reply) ∈
          getCharacterResponses userInput characters sabotage chatHistory
            playerCharacterName apiText completionLatency := by
  refine ⟨getCharacterResponses_names _ _ _ _ _ _ _, fun c e hc he => ?_⟩
  unfold getCharacterResponses
  exact List.mem_map.mpr ⟨c, hc, by rw [he]⟩

theorem tallyLookup_map_bump (m n : String) (t : List (String × Nat)) :
    tallyLookup (t.map (fun p => if p.1 = m then (p.1, p.2 + 1) else p)) n
      = tallyLookup t n + (if n = m ∧ n ∈ t.map (fun p => p.1) then 1 else 0) := by
  induction t with
  | nil => simp [tallyLookup]
  | cons q rest ih =>
    by_cases hq : q.1 = n
    · subst hq
      by_cases hm : q.1 = m <;> simp [tallyLookup, hm]
    · have hq' : ¬ n = q.1 := fun h => hq h.symm
      by_cases hm : q.1 = m
      · have hmn : ¬ m = n := fun h => hq (hm.trans h)
        have hnm : ¬ n = m := fun h => hq' (h.trans hm.symm)
        simp [tallyLookup, hm, hmn, hnm, ih]
      · have hcons : (n ∈ q.1 :: List.map (fun p => p.1) rest)
            = (n ∈ List.map (fun p => p.1) rest) := by
          simp [List.mem_cons, hq']
        simp only [List.map_cons, tallyLookup, hm, if_neg, hq, ite_false, ih, hcons]

theorem tallyLookup_append_single (m n : String) (t : List (String × Nat))
    (hm : ¬ m ∈ t.map (fun p => p.1)) :
    tallyLookup (t ++ [(m, 1)]) n = tallyLookup t n + (if n = m then 1 else 0) := by
  induction t with
  | nil =>
    by_cases hn : n = m
    · simp [tallyLookup, hn]
    · have hmn : ¬ m = n := fun h => hn h.symm
      simp [tallyLookup, hn, hmn]
  | cons q rest ih =>
    simp only [List.map_cons, List.mem_cons, not_or] at hm
    by_cases hq : q.1 = n
    · have hnm : ¬ n = m := by
        intro h; exact hm.1 (by rw [hq, h])
      simp [tallyLookup, hq, hnm]
    · simp [tallyLookup, hq, ih hm.2]

theorem tallyLookup_bumpTally (m n : String) (t : List (String × Nat)) :
    tallyLookup (bumpTally t m) n = tallyLookup t n + (if n = m then 1 else 0) := by
  unfold bumpTally
  by_cases hmem : m ∈ t.map (fun p => p.1)
  · rw [if_pos hmem, tallyLookup_map_bump]
    congr 1
    by_cases hn : n = m
    · subst hn; simp [hmem]
    · simp [hn]
  · rw [if_neg hmem, tallyLookup_append_single m n t hmem]

theorem tallyLookup_initialTally (characters : List Character) (n : String) :
    tallyLookup (initialTally characters) n = 0 := by
  induction characters with
  | nil => rfl
  | cons c rest ih =>
    by_cases hc : c.name = n <;> simp [initialTally, tallyLookup, hc] <;>
      simpa [initialTally] using ih

theorem tallyLookup_currentTally (characters : List Character) (allVotes : List Vote)
    (n : String) :
    tallyLookup (currentTally characters allVotes) n
      = (allVotes.filter (fun v => decide (v.votedFor = n))).length := by
  induction allVotes using List.reverseRecOn with
  | nil => simpa [currentTally] using tallyLookup_initialTally characters n
  | append_singleton vs v ih =>
    rw [currentTally, List.foldl_append]
    simp only [List.foldl_cons, List.foldl_nil]
    rw [show List.foldl (fun t v => bumpTally t v.votedFor) (initialTally characters) vs
        = currentTally characters vs from rfl]
    rw [tallyLookup_bumpTally, ih, List.filter_append]
    by_cases hv : v.votedFor = n
    · simp [hv]
    · have hnv : ¬ n = v.votedFor := fun h => hv h.symm
      simp [hv, hnv]

theorem markVotedOut_not_mem (characters : List Character) (n : String)
    (h : ¬ n ∈ characters.map (fun c => c.name)) :
    markVotedOut characters n = characters := by
  induction characters with
  | nil => rfl
  | cons c rest ih =>
    simp only [List.map_cons, List.mem_cons, not_or] at h
    have hc : ¬ c.name = n := fun hc => h.1 hc.symm
    simp [markVotedOut, hc]
    simpa [markVotedOut] using ih h.2

theorem find?_name_not_mem (characters : List Character) (n : String)
    (h : ¬ n ∈ characters.map (fun c => c.name)) :
    characters.find? (fun c => decide (c.name = n)) = none := by
  rw [List.find?_eq_none]
  intro c hc
  simp only [List.mem_map, not_exists, not_and] at h
  simp [fun he => h c hc (he : c.name = n)]

/-- C5 (amended): the tally counter of any name counts exactly the votes
whose target is that name — so unknown-target votes accumulate their own
counter and never contribute to a roster character's count — and when a
name matches no roster character the elimination step changes no
character's status and the roster lookup fails. -/
theorem claim5_unknown_target_tally (characters : List Character) (allVotes : List Vote)
    (n : String) :
    tallyLookup (currentTally characters allVotes) n
      = (allVotes.filter (fun v => decide (v.votedFor = n))).length
    ∧ (¬ n ∈ characters.map (fun c => c.name) →
        markVotedOut characters n = characters
        ∧ characters.find? (fun c => decide (c.name = n)) = none) :=
  ⟨tallyLookup_currentTally characters allVotes n,
   fun h => ⟨markVotedOut_not_mem characters n h, find?_name_not_mem characters n h⟩⟩

/-- C5 is false as stated: with roster {A (player), B, C} and AI votes of B
and C for the unknown name Ghost, the tally holds a counter of 2 for Ghost,
and Ghost — not a roster name — is the sole elimination candidate. -/
theorem claim5_counterexample :
    tallyLookup (roundTally ghostChars (Vote.mk "A" "B")
        [Vote.mk "B" "Ghost", Vote.mk "C" "Ghost"]) "Ghost" = 2
    ∧ candidatesForElimination (roundTally ghostChars (Vote.mk "A" "B")
        [Vote.mk "B" "Ghost", Vote.mk "C" "Ghost"]) = ["Ghost"]
    ∧ ¬ "Ghost" ∈ ghostChars.map (fun c => c.name) := by decide

theorem foldl_max_mem (l : List Nat) : ∀ a : Nat, l.foldl Nat.max a ∈ a :: l := by
  induction l with
  | nil => intro a; simp
  | cons x xs ih =>
    intro a
    rw [List.foldl_cons]
    rcases List.mem_cons.mp (ih (Nat.max a x)) with h0 | hm
    · rw [h0]
      rcases Nat.le_total a x with hax | hxa
      · have hx : Nat.max a x = x := by simp [Nat.max_def, hax]
        rw [hx]
        exact List.mem_cons_of_mem _ (List.mem_cons_self _ _)
      · have hx : Nat.max a x = a := by
          simp only [Nat.max_def]
          by_cases hce : a ≤ x
          · have : a = x := Nat.le_antisymm hce hxa
            simp [hce, this]
          · simp [hce]
        rw [hx]
        exact List.mem_cons_self _ _
    · exact List.mem_cons_of_mem _ (List.mem_cons_of_mem _ hm)

theorem maxVotes_pos_mem (t : List (String × Nat)) (h : 0 < maxVotes t) :
    ∃ p ∈ t, p.2 = maxVotes t := by
  rcases List.mem_cons.mp (foldl_max_mem (t.map (fun p => p.2)) 0) with h0 | hm
  · exfalso
    rw [maxVotes] at h
    omega
  · rcases List.mem_map.mp hm with ⟨p, hp, he⟩
    exact ⟨p, hp, he⟩

theorem candidates_nil_iff (t : List (String × Nat)) :
    candidatesForElimination t = [] ↔ maxVotes t = 0 := by
  constructor
  · intro h
    by_contra hmax
    obtain ⟨p, hp, he⟩ := maxVotes_pos_mem t (Nat.pos_of_ne_zero hmax)
    have hmem : p.1 ∈ candidatesForElimination t :=
      List.mem_map_of_mem _
        (List.mem_filter.mpr ⟨hp, by simp [he, Nat.pos_of_ne_zero hmax]⟩)
    rw [h] at hmem
    simp at hmem
  · intro h
    unfold candidatesForElimination
    have hfil : t.filter (fun p => decide (p.2 = maxVotes t ∧ 0 < maxVotes t)) = [] := by
      rw [List.filter_eq_nil_iff]
      intro p hp
      simp [h]
    rw [hfil]
    rfl

theorem handlePlayerVote_run (s : Session) (p : Character) (votedName : String)
    (gw : Except String (List Vote × String))
    (hp : s.playerCharacter = some p) (hg : s.gameState = GameState.voting)
    (hl : s.isLoading = false) :
    handlePlayerVote s votedName gw = handleVoteRound s p votedName gw := by
  unfold handlePlayerVote
  rw [hp]
  simp [hg, hl]

theorem withTallies_statuses (t : List (String × Nat)) (l : List Character) :
    (withTallies t l).map (fun c => c.status) = l.map (fun c => c.status) := by
  unfold withTallies
  rw [List.map_map]
  apply List.map_congr_left
  intro c _
  rfl

theorem villainAutoWin_characters (s : Session) (cv : List Character) (msgs : List Message)
    (b : Bool) (confession : String) :
    (villainAutoWin s cv msgs b confession).characters = cv := by
  unfold villainAutoWin
  cases hv : s.villain <;> rfl

theorem villainAutoWin_gameState (s : Session) (cv : List Character) (msgs : List Message)
    (b : Bool) (confession : String) (v : Character) (hv : s.villain = some v) :
    (villainAutoWin s cv msgs b confession).gameState
      = if b then GameState.game_over_win else GameState.game_over_loss := by
  unfold villainAutoWin
  rw [hv]

theorem villainAutoWin_isLoading (s : Session) (cv : List Character) (msgs : List Message)
    (b : Bool) (confession : String) :
    (villainAutoWin s cv msgs b confession).isLoading = false := by
  unfold villainAutoWin
  cases hv : s.villain <;> rfl

theorem resolveRound_of_nil (s : Session) (p : Character) (confession : String)
    (tally : List (String × Nat)) (msgs1 : List Message) (cv : List Character)
    (h : candidatesForElimination tally = []) :
    resolveRound s p confession tally msgs1 cv
      = villainAutoWin s cv
          (msgs1 ++ [specialMsg "아무도 지목되지 않았습니다. 빌런을 잡지 못했으므로, 시민들의 패배입니다..."])
          p.isVillain confession := by
  unfold resolveRound
  rw [h]

theorem resolveRound_of_single (s : Session) (p : Character) (confession : String)
    (tally : List (String × Nat)) (msgs1 : List Message) (cv : List Character)
    (n : String) (h : candidatesForElimination tally = [n]) :
    resolveRound s p confession tally msgs1 cv = eliminateOne s p confession msgs1 cv n := by
  unfold resolveRound
  rw [h]

theorem resolveRound_of_cons2 (s : Session) (p : Character) (confession : String)
    (tally : List (String × Nat)) (msgs1 : List Message) (cv : List Character)
    (a b : String) (rest : List String)
    (h : candidatesForElimination tally = a :: b :: rest) :
    resolveRound s p confession tally msgs1 cv
      = villainAutoWin s cv
          (msgs1 ++ [specialMsg "투표가 동점으로 끝났습니다! 빌런을 특정하지 못했으므로, 시민들의 패배입니다..."])
          p.isVillain confession := by
  unfold resolveRound
  rw [h]

theorem eliminateOne_villain_gameState (s : Session) (p : Character) (confession : String)
    (msgs : List Message) (cv : List Character) (n : String) (w : Character)
    (hf : s.characters.find? (fun c => decide (c.name = n)) = some w)
    (hwv : w.isVillain = true) :
    (eliminateOne s p confession msgs cv n).gameState
      = if p.isVillain then GameState.game_over_loss else GameState.game_over_win := by
  unfold eliminateOne
  rw [hf]
  simp [hwv]

theorem eliminateOne_playerOut_gameState (s : Session) (p : Character) (confession : String)
    (msgs : List Message) (cv : List Character) (n : String) (w v : Character)
    (hf : s.characters.find? (fun c => decide (c.name = n)) = some w)
    (hwv : w.isVillain = false) (hwp : w.isPlayer = true) (hv : s.villain = some v) :
    (eliminateOne s p confession msgs cv n).gameState = GameState.game_over_loss := by
  unfold eliminateOne
  rw [hf]
  simp [hwv, hwp, hv]

theorem eliminateOne_attrition_gameState (s : Session) (p : Character) (confession : String)
    (msgs : List Message) (cv : List Character) (n : String) (w v : Character)
    (hf : s.characters.find? (fun c => decide (c.name = n)) = some w)
    (hwv : w.isVillain = false) (hwp : w.isPlayer = false) (hv : s.villain = some v)
    (hle : remainingActiveAfter s.characters ≤ 2) :
    (eliminateOne s p confession msgs cv n).gameState
      = if p.isVillain then GameState.game_over_win else GameState.game_over_loss := by
  unfold eliminateOne
  rw [hf]
  simp [hwv, hwp, hle, hv]

theorem eliminateOne_continue_gameState (s : Session) (p : Character) (confession : String)
    (msgs : List Message) (cv : List Character) (n : String) (w : Character)
    (hf : s.characters.find? (fun c => decide (c.name = n)) = some w)
    (hwv : w.isVillain = false) (hwp : w.isPlayer = false)
    (hgt : ¬ remainingActiveAfter s.characters ≤ 2) :
    (eliminateOne s p confession msgs cv n).gameState = GameState.discussion := by
  unfold eliminateOne
  rw [hf]
  simp [hwv, hwp, hgt]

theorem eliminateOne_continue_characters (s : Session) (p : Character) (confession : String)
    (msgs : List Message) (cv : List Character) (n : String) (w : Character)
    (hf : s.characters.find? (fun c => decide (c.name = n)) = some w)
    (hwv : w.isVillain = false) (hwp : w.isPlayer = false)
    (hgt : ¬ remainingActiveAfter s.characters ≤ 2) :
    (eliminateOne s p confession msgs cv n).characters
      = resetVotes (markVotedOut cv n) := by
  unfold eliminateOne
  rw [hf]
  simp [hwv, hwp, hgt]

theorem eliminateOne_characters_cases (s : Session) (p : Character) (confession : String)
    (msgs : List Message) (cv : List Character) (n : String) :
    (eliminateOne s p confession msgs cv n).characters = markVotedOut cv n
    ∨ (eliminateOne s p confession msgs cv n).characters
        = resetVotes (markVotedOut cv n) := by
  rcases hf : s.characters.find? (fun c => decide (c.name = n)) with _ | w
  · left; unfold eliminateOne; rw [hf]
  · by_cases h1 : w.isVillain
    · left; unfold eliminateOne; rw [hf]; simp [h1]
    · by_cases h2 : w.isPlayer
      · rcases hv : s.villain with _ | v <;>
          (left; unfold eliminateOne; rw [hf]; simp [h1, h2, hv])
      · by_cases h3 : remainingActiveAfter s.characters ≤ 2
        · rcases hv : s.villain with _ | v <;>
            (left; unfold eliminateOne; rw [hf]; simp [h1, h2, h3, hv])
        · right; unfold eliminateOne; rw [hf]; simp [h1, h2, h3]

theorem eliminateOne_isLoading (s : Session) (p : Character) (confession : String)
    (msgs : List Message) (cv : List Character) (n : String) :
    (eliminateOne s p confession msgs cv n).isLoading = false := by
  rcases hf : s.characters.find? (fun c => decide (c.name = n)) with _ | w
  · unfold eliminateOne; rw [hf]
  · by_cases h1 : w.isVillain
    · unfold eliminateOne; rw [hf]; simp [h1]
    · by_cases h2 : w.isPlayer
      · rcases hv : s.villain with _ | v <;>
          (unfold eliminateOne; rw [hf]; simp [h1, h2, hv])
      · by_cases h3 : remainingActiveAfter s.characters ≤ 2
        · rcases hv : s.villain with _ | v <;>
            (unfold eliminateOne; rw [hf]; simp [h1, h2, h3, hv])
        · unfold eliminateOne; rw [hf]; simp [h1, h2, h3]

theorem resolveRound_isLoading (s : Session) (p : Character) (confession : String)
    (tally : List (String × Nat)) (msgs1 : List Message) (cv : List Character) :
    (resolveRound s p confession tally msgs1 cv).isLoading = false := by
  rcases hc : candidatesForElimination tally with _ | ⟨a, _ | ⟨b, rest⟩⟩
  · rw [resolveRound_of_nil _ _ _ _ _ _ hc]
    exact villainAutoWin_isLoading _ _ _ _ _
  · rw [resolveRound_of_single _ _ _ _ _ _ _ hc]
    exact eliminateOne_isLoading _ _ _ _ _ _
  · rw [resolveRound_of_cons2 _ _ _ _ _ _ _ _ _ hc]
    exact villainAutoWin_isLoading _ _ _ _ _

theorem handleVoteRound_isLoading (s : Session) (p : Character) (votedName : String)
    (gw : Except String (List Vote × String)) :
    (handleVoteRound s p votedName gw).isLoading = false := by
  rcases gw with e | ⟨aiVotes, confession⟩
  · rfl
  · exact resolveRound_isLoading _ _ _ _ _ _

/-- C2: when the candidate set has size other than one (a tie, or no
candidate at all, the latter exactly when `maxVotes = 0`), no character's
status changes and the outcome is `game_over_win` when the player is the
villain and `game_over_loss` otherwise. -/
theorem claim2_tie_or_no_candidates (s : Session) (p v : Character) (votedName : String)
    (aiVotes : List Vote) (confession : String)
    (hp : s.playerCharacter = some p) (hg : s.gameState = GameState.voting)
    (hl : s.isLoading = false) (hv : s.villain = some v)
    (hne : (candidatesForElimination
        (roundTally s.characters (Vote.mk p.name votedName) aiVotes)).length ≠ 1) :
    (handlePlayerVote s votedName (Except.ok (aiVotes, confession))).characters.map
        (fun c => c.status) = s.characters.map (fun c => c.status)
    ∧ (handlePlayerVote s votedName (Except.ok (aiVotes, confession))).gameState
      = (if p.isVillain then GameState.game_over_win else GameState.game_over_loss)
    ∧ (candidatesForElimination (roundTally s.characters (Vote.mk p.name votedName) aiVotes)
        = [] ↔ maxVotes (roundTally s.characters (Vote.mk p.name votedName) aiVotes) = 0) := by
  rw [handlePlayerVote_run s p votedName _ hp hg hl]
  have hbody : handleVoteRound s p votedName (Except.ok (aiVotes, confession))
      = resolveRound s p confession
          (roundTally s.characters (Vote.mk p.name votedName) aiVotes)
          ((s.messages ++ [tallyingMsg]) ++
            (roundVotes s.characters (Vote.mk p.name votedName) aiVotes).map voteAnnouncement)
          (withTallies (roundTally s.characters (Vote.mk p.name votedName) aiVotes)
            s.characters) := rfl
  rw [hbody]
  refine ⟨?_, ?_, candidates_nil_iff _⟩ <;>
    rcases hc : candidatesForElimination
        (roundTally s.characters (Vote.mk p.name votedName) aiVotes)
      with _ | ⟨a, _ | ⟨b, rest⟩⟩
  · rw [resolveRound_of_nil _ _ _ _ _ _ hc, villainAutoWin_characters]
    exact withTallies_statuses _ _
  · exact absurd (by rw [hc]; rfl) hne
  · rw [resolveRound_of_cons2 _ _ _ _ _ _ _ _ _ hc, villainAutoWin_characters]
    exact withTallies_statuses _ _
  · rw [resolveRound_of_nil _ _ _ _ _ _ hc, villainAutoWin_gameState _ _ _ _ _ v hv]
  · exact absurd (by rw [hc]; rfl) hne
  · rw [resolveRound_of_cons2 _ _ _ _ _ _ _ _ _ hc, villainAutoWin_gameState _ _ _ _ _ v hv]

theorem resetVotes_votes (l : List Character) : ∀ c ∈ resetVotes l, c.votes = 0 := by
  intro c hc
  rcases List.mem_map.mp hc with ⟨c', _, rfl⟩
  rfl

theorem mem_markVotedOut_name (l : List Character) (n : String) :
    ∀ c ∈ markVotedOut l n, c.name = n → c.status = Status.voted_out := by
  intro c hc
  rcases List.mem_map.mp hc with ⟨c', _, rfl⟩
  by_cases h : c'.name = n
  · intro _
    simp [h]
  · rw [if_neg h]
    intro hn
    exact absurd hn h

theorem mem_resetVotes_name (l : List Character) (n : String)
    (h : ∀ c ∈ l, c.name = n → c.status = Status.voted_out) :
    ∀ c ∈ resetVotes l, c.name = n → c.status = Status.voted_out := by
  intro c hc
  rcases List.mem_map.mp hc with ⟨c', hc', rfl⟩
  intro hn
  exact h c' hc' hn

/-- C3: when the sole candidate is an innocent non-player character, the
engine computes the remaining head count as the pre-round active count
minus one; at two or fewer the round ends with `game_over_win` exactly when
the player is the villain, and above two the game continues: every
character's vote tally is reset to 0 and the phase returns to discussion. -/
theorem claim3_innocent_nonplayer (s : Session) (p v w : Character) (votedName n : String)
    (aiVotes : List Vote) (confession : String)
    (hp : s.playerCharacter = some p) (hg : s.gameState = GameState.voting)
    (hl : s.isLoading = false) (hv : s.villain = some v)
    (hc : candidatesForElimination
        (roundTally s.characters (Vote.mk p.name votedName) aiVotes) = [n])
    (hf : s.characters.find? (fun c => decide (c.name = n)) = some w)
    (hwv : w.isVillain = false) (hwp : w.isPlayer = false) :
    (remainingActiveAfter s.characters ≤ 2 →
      (handlePlayerVote s votedName (Except.ok (aiVotes, confession))).gameState
        = (if p.isVillain then GameState.game_over_win else GameState.game_over_loss))
    ∧ (2 < remainingActiveAfter s.characters →
      (handlePlayerVote s votedName (Except.ok (aiVotes, confession))).gameState
        = GameState.discussion
      ∧ ∀ c ∈ (handlePlayerVote s votedName (Except.ok (aiVotes, confession))).characters,
          c.votes = 0) := by
  rw [handlePlayerVote_run s p votedName _ hp hg hl]
  have hbody : handleVoteRound s p votedName (Except.ok (aiVotes, confession))
      = resolveRound s p confession
          (roundTally s.characters (Vote.mk p.name votedName) aiVotes)
          ((s.messages ++ [tallyingMsg]) ++
            (roundVotes s.characters (Vote.mk p.name votedName) aiVotes).map voteAnnouncement)
          (withTallies (roundTally s.characters (Vote.mk p.name votedName) aiVotes)
            s.characters) := rfl
  rw [hbody, resolveRound_of_single _ _ _ _ _ _ _ hc]
  constructor
  · intro hle
    exact eliminateOne_attrition_gameState _ _ _ _ _ _ w v hf hwv hwp hv hle
  · intro hgt
    have hgt' : ¬ remainingActiveAfter s.characters ≤ 2 := by omega
    refine ⟨eliminateOne_continue_gameState _ _ _ _ _ _ w hf hwv hwp hgt', ?_⟩
    rw [eliminateOne_continue_characters _ _ _ _ _ _ w hf hwv hwp hgt']
    exact resetVotes_votes _

/-- C4: with exactly one candidate who is a roster character, that
character's status becomes `voted_out`; a caught villain yields
`game_over_win` exactly when the player is innocent, and an innocent player
voted out always yields `game_over_loss`. -/
theorem claim4_single_elimination (s : Session) (p v w : Character) (votedName n : String)
    (aiVotes : List Vote) (confession : String)
    (hp : s.playerCharacter = some p) (hg : s.gameState = GameState.voting)
    (hl : s.isLoading = false) (hv : s.villain = some v)
    (hc : candidatesForElimination
        (roundTally s.characters (Vote.mk p.name votedName) aiVotes) = [n])
    (hf : s.characters.find? (fun c => decide (c.name = n)) = some w) :
    (∀ c ∈ (handlePlayerVote s votedName (Except.ok (aiVotes, confession))).characters,
        c.name = n → c.status = Status.voted_out)
    ∧ (w.isVillain = true →
        (handlePlayerVote s votedName (Except.ok (aiVotes, confession))).gameState
          = (if p.isVillain then GameState.game_over_loss else GameState.game_over_win))
    ∧ (w.isVillain = false → w.isPlayer = true →
        (handlePlayerVote s votedName (Except.ok (aiVotes, confession))).gameState
          = GameState.game_over_loss) := by
  rw [handlePlayerVote_run s p votedName _ hp hg hl]
  have hbody : handleVoteRound s p votedName (Except.ok (aiVotes, confession))
      = resolveRound s p confession
          (roundTally s.characters (Vote.mk p.name votedName) aiVotes)
          ((s.messages ++ [tallyingMsg]) ++
            (roundVotes s.characters (Vote.mk p.name votedName) aiVotes).map voteAnnouncement)
          (withTallies (roundTally s.characters (Vote.mk p.name votedName) aiVotes)
            s.characters) := rfl
  rw [hbody, resolveRound_of_single _ _ _ _ _ _ _ hc]
  refine ⟨?_,
    fun hwv => eliminateOne_villain_gameState _ _ _ _ _ _ w hf hwv,
    fun hwv hwp => eliminateOne_playerOut_gameState _ _ _ _ _ _ w v hf hwv hwp hv⟩
  rcases eliminateOne_characters_cases s p confession _ _ n with hch | hch
  · rw [hch]
    exact mem_markVotedOut_name _ _
  · rw [hch]
    exact mem_resetVotes_name _ _ (mem_markVotedOut_name _ _)

/-- C7: a gateway failure during vote resolution appends exactly one system
error message after the already-committed transcript, returns the phase to
discussion, leaves the roster untouched, and the busy flag ends false on
every gateway outcome. -/
theorem claim7_gateway_failure (s : Session) (p : Character) (votedName e : String)
    (hp : s.playerCharacter = some p) (hg : s.gameState = GameState.voting)
    (hl : s.isLoading = false) :
    (handlePlayerVote s votedName (Except.error e)).messages
      = (s.messages ++ [tallyingMsg]) ++ [gatewayErrorMsg e]
    ∧ (handlePlayerVote s votedName (Except.error e)).gameState = GameState.discussion
    ∧ (handlePlayerVote s votedName (Except.error e)).characters = s.characters
    ∧ ∀ gw, (handlePlayerVote s votedName gw).isLoading = false := by
  refine ⟨?_, ?_, ?_, fun gw => ?_⟩
  all_goals rw [handlePlayerVote_run s p votedName _ hp hg hl]
  · rfl
  · rfl
  · rfl
  · exact handleVoteRound_isLoading s p votedName gw

theorem statusPreserved_refl (l : List Character) : statusPreserved l l :=
  ⟨rfl, fun _ _ _ h => h⟩

theorem statusPreserved_map (l : List Character) (f : Character → Character)
    (hf : ∀ c, c.status = Status.voted_out → (f c).status = Status.voted_out) :
    statusPreserved l (l.map f) := by
  refine ⟨List.length_map _ _, fun i hi hj h => ?_⟩
  rw [List.get_eq_getElem, List.getElem_map]
  rw [List.get_eq_getElem] at h
  exact hf _ h

theorem statusPreserved_trans {l m n : List Character} :
    statusPreserved l m → statusPreserved m n → statusPreserved l n := by
  rintro ⟨hm, h1⟩ ⟨hn, h2⟩
  refine ⟨by omega, fun i hi hj h => ?_⟩
  have him : i < m.length := by omega
  exact h2 i him hj (h1 i hi him h)

theorem statusPreserved_mergePortrait (l : List Character) (idx : Nat) (url : String) :
    statusPreserved l (mergePortrait l idx url) := by
  rcases hg : l.get? idx with _ | c
  · unfold mergePortrait
    rw [hg]
    exact statusPreserved_refl l
  · obtain ⟨hlt, hcg⟩ := List.get?_eq_some.mp hg
    unfold mergePortrait
    rw [hg]
    show statusPreserved l (l.set idx { c with imageUrl := some url })
    refine ⟨List.length_set _ _ _, fun i hi hj h => ?_⟩
    rw [List.get_eq_getElem, List.getElem_set]
    rw [List.get_eq_getElem] at h
    by_cases hix : idx = i
    · rw [if_pos hix]
      subst hix
      show c.status = Status.voted_out
      rw [List.get_eq_getElem] at hcg
      rw [← hcg]
      exact h
    · rw [if_neg hix]
      exact h

theorem markVotedOut_status_mono (n : String) (c : Character)
    (h : c.status = Status.voted_out) :
    (if c.name = n then { c with status := Status.voted_out } else c).status
      = Status.voted_out := by
  by_cases hc : c.name = n
  · simp [hc]
  · simp [hc, h]

theorem eliminateOne_statusPreserved (s : Session) (p : Character) (confession : String)
    (msgs : List Message) (cv : List Character) (n : String)
    (hcv : statusPreserved s.characters cv) :
    statusPreserved s.characters (eliminateOne s p confession msgs cv n).characters := by
  have hmark : statusPreserved s.characters (markVotedOut cv n) :=
    statusPreserved_trans hcv (statusPreserved_map _ _ (markVotedOut_status_mono n))
  rcases eliminateOne_characters_cases s p confession msgs cv n with hch | hch <;> rw [hch]
  · exact hmark
  · exact statusPreserved_trans hmark (statusPreserved_map _ _ (fun c h => h))

theorem resolveRound_statusPreserved (s : Session) (p : Character) (confession : String)
    (tally : List (String × Nat)) (msgs1 : List Message) (cv : List Character)
    (hcv : statusPreserved s.characters cv) :
    statusPreserved s.characters (resolveRound s p confession tally msgs1 cv).characters := by
  rcases hc : candidatesForElimination tally with _ | ⟨a, _ | ⟨b, rest⟩⟩
  · rw [resolveRound_of_nil _ _ _ _ _ _ hc, villainAutoWin_characters]
    exact hcv
  · rw [resolveRound_of_single _ _ _ _ _ _ _ hc]
    exact eliminateOne_statusPreserved _ _ _ _ _ _ hcv
  · rw [resolveRound_of_cons2 _ _ _ _ _ _ _ _ _ hc, villainAutoWin_characters]
    exact hcv

theorem handleVoteRound_statusPreserved (s : Session) (p : Character) (votedName : String)
    (gw : Except String (List Vote × String)) :
    statusPreserved s.characters (handleVoteRound s p votedName gw).characters := by
  rcases gw with e | ⟨aiVotes, confession⟩
  · exact statusPreserved_refl _
  · exact resolveRound_statusPreserved _ _ _ _ _ _
      (statusPreserved_map _ _ (fun c h => h))

/-- C8: neither a vote round, nor a message exchange, nor a portrait merge
ever reverses a voted-out status: each operation keeps the roster length and
maps a voted-out character to a voted-out character at the same position. -/
theorem claim8_status_monotone (s : Session) (votedName userInput : String)
    (gw : Except String (List Vote × String)) (apiText : String → Except String String)
    (completionLatency : String → Nat) (characters : List Character) (index : Nat)
    (url : String) :
    statusPreserved s.characters (handlePlayerVote s votedName gw).characters
    ∧ statusPreserved s.characters
        (handleSendMessage s userInput apiText completionLatency).characters
    ∧ statusPreserved characters (mergePortrait characters index url) := by
  refine ⟨?_, ?_, statusPreserved_mergePortrait _ _ _⟩
  · rcases hp : s.playerCharacter with _ | p
    · unfold handlePlayerVote
      rw [hp]
      exact statusPreserved_refl _
    · unfold handlePlayerVote
      rw [hp]
      dsimp only
      by_cases hguard : s.gameState = GameState.voting ∧ s.isLoading = false
      · rw [if_pos hguard]
        exact handleVoteRound_statusPreserved s p votedName gw
      · rw [if_neg hguard]
        exact statusPreserved_refl _
  · rcases hp : s.playerCharacter with _ | p
    · unfold handleSendMessage
      rw [hp]
      exact statusPreserved_refl _
    · unfold handleSendMessage
      rw [hp]
      dsimp only
      by_cases hguard : jsTrim userInput = "" ∨ s.isLoading = true
          ∨ s.gameState ≠ GameState.discussion
      · rw [if_pos hguard]
        exact statusPreserved_refl _
      · rw [if_neg hguard]
        exact statusPreserved_refl _

theorem handleSendMessage_run (s : Session) (p : Character) (userInput : String)
    (apiText : String → Except String String) (completionLatency : String → Nat)
    (hp : s.playerCharacter = some p) (hg : s.gameState = GameState.discussion)
    (hl : s.isLoading = false) (ht : ¬ jsTrim userInput = "") :
    handleSendMessage s userInput apiText completionLatency
      = { s with
            messages := (s.messages ++ [playerMessage p userInput]) ++
              (getCharacterResponses userInput s.characters s.sabotage
                (s.messages ++ [playerMessage p userInput]) p.name apiText
                completionLatency).map replyMessage,
            isLoading := false } := by
  unfold handleSendMessage
  rw [hp]
  simp [ht, hl, hg]

/-- C6: the reply sequence yields exactly one reply per active non-player
character in roster order, its value never depends on the per-request
completion latency, and the transcript receives precisely those replies
appended in that order after the player's own message. -/
theorem claim6_reply_order (s : Session) (p : Character) (userInput : String)
    (apiText : String → Except String String) (lat1 lat2 : String → Nat)
    (hp : s.playerCharacter = some p) (hg : s.gameState = GameState.discussion)
    (hl : s.isLoading = false) (ht : ¬ jsTrim userInput = "") :
    (getCharacterResponses userInput s.characters s.sabotage
        (s.messages ++ [playerMessage p userInput]) p.name apiText lat1).map
          (fun r => r.name)
      = (activeAICharacters s.characters p.name).map (fun c => c.name)
    ∧ getCharacterResponses userInput s.characters s.sabotage
        (s.messages ++ [playerMessage p userInput]) p.name apiText lat1
      = getCharacterResponses userInput s.characters s.sabotage
        (s.messages ++ [playerMessage p userInput]) p.name apiText lat2
    ∧ (handleSendMessage s userInput apiText lat1).messages
      = (s.messages ++ [playerMessage p userInput]) ++
        (getCharacterResponses userInput s.characters s.sabotage
          (s.messages ++ [playerMessage p userInput]) p.name apiText lat1).map
            replyMessage := by
  refine ⟨getCharacterResponses_names _ _ _ _ _ _ _, rfl, ?_⟩
  rw [handleSendMessage_run s p userInput apiText lat1 hp hg hl ht]

/-- Witness for C2: in the four-character sample session a 2-2 tie between V
and C ends the round with `game_over_loss` for the innocent player. -/
theorem claim2_tie_witness :
    (handlePlayerVote tieSession "V" (Except.ok (tieAiVotes, "들켰네요"))).gameState
      = GameState.game_over_loss := by
  have h := claim2_tie_or_no_candidates tieSession tiePlayer tieVillainChar "V" tieAiVotes
    "들켰네요" rfl rfl rfl rfl (by decide)
  exact h.2.1.trans (by decide)

/-- Witness for C3: in the five-character sample session the innocent C is
eliminated, four actives remain, and the game returns to discussion. -/
theorem claim3_continue_witness :
    (handlePlayerVote contSession "C" (Except.ok (contAiVotes, "인정합니다"))).gameState
      = GameState.discussion := by
  have h := claim3_innocent_nonplayer contSession (mkChar "P" false Status.active true)
    (mkChar "V" true Status.active false) contChar "C" "C" contAiVotes "인정합니다"
    rfl rfl rfl rfl (by decide) (by decide) rfl rfl
  exact (h.2 (by decide)).1

/-- Witness for C4: catching the villain V in the four-character sample
session ends with `game_over_win` for the innocent player. -/
theorem claim4_catch_witness :
    (handlePlayerVote tieSession "V" (Except.ok (catchAiVotes, "제가 그랬습니다"))).gameState
      = GameState.game_over_win := by
  have h := claim4_single_elimination tieSession tiePlayer tieVillainChar tieVillainChar
    "V" "V" catchAiVotes "제가 그랬습니다" rfl rfl rfl rfl (by decide) (by decide)
  exact (h.2.1 rfl).trans (by decide)

/-- Witness for C6: in the sample discussion session the reply stream names
match the active non-player roster in order. -/
theorem claim6_order_witness :
    (getCharacterResponses "범인 누구야" chatSession.characters chatSession.sabotage
        (chatSession.messages ++ [playerMessage tiePlayer "범인 누구야"]) tiePlayer.name
        okApi zeroLatency).map (fun r => r.name)
      = (activeAICharacters chatSession.characters tiePlayer.name).map (fun c => c.name) := by
  have h := claim6_reply_order chatSession tiePlayer "범인 누구야" okApi zeroLatency
    zeroLatency rfl rfl rfl (by decide)
  exact h.1

/-- Witness for C7: a failing gateway call in the sample voting session
returns the phase to discussion. -/
theorem claim7_failure_witness :
    (handlePlayerVote tieSession "V" (Except.error "서버 오류")).gameState
      = GameState.discussion := by
  have h := claim7_gateway_failure tieSession tiePlayer "V" "서버 오류" rfl rfl rfl
  exact h.2.1

end OfficeVillain
